import Mathlib

/-!
Verification of the presence and message-relay core of the rental-app
backend (`src/server/server.js`, the `io.on("connection")` block).

The JavaScript source kept in view while writing the definitions:

  global.onlineUsers = new Map();
  io.on("connection", (socket) => {
    global.chatSocket = socket;
    socket.on("addUser", (userId) => {
      onlineUsers.set(userId, socket.id);
    });
    socket.on("sendMsg", (data) => {
      const sendUserSocketId = onlineUsers.get(data.to);
      if (sendUserSocketId) {
        socket.to(sendUserSocketId).emit("receiveMsg", data.message);
      }
    });
  });

No `disconnect` handler is installed, so a disconnection leaves the
registry untouched.
-/

namespace RentalApp

/-- A JavaScript value used as a key of the `onlineUsers` map.  Keys are
user identifiers (opaque strings); `none` models the JavaScript value
`undefined`, which arises when a client omits the argument of `addUser`
or the `to` field of a `sendMsg` payload.  `Map` keys compare with
SameValueZero, which on strings and `undefined` is plain equality. -/
abbrev UserKey := Option String

/-- A socket.io connection identifier (`socket.id`), an opaque string. -/
abbrev SocketId := String

/-- The process-wide `onlineUsers` JavaScript `Map`, modelled as an
association list in insertion order. -/
abbrev Registry := List (UserKey × SocketId)

/-- `Map.prototype.get`: the value stored under the key, or `none`
(JavaScript `undefined`) when the key is absent. -/
def mapGet : Registry → UserKey → Option SocketId
  | [], _ => none
  | (k, v) :: rest, u => if k = u then some v else mapGet rest u

/-- `Map.prototype.set`: overwrite the value of an existing key in
place, otherwise append a fresh entry. -/
def mapSet : Registry → UserKey → SocketId → Registry
  | [], k, v => [(k, v)]
  | (k', v') :: rest, k, v =>
      if k' = k then (k, v) :: rest else (k', v') :: mapSet rest k v

/-- The (non-nullish) payload of a `sendMsg` event: `data.to` is the
target user key (`none` when the field is missing, i.e. `undefined`)
and `data.message` is the opaque relayed value. -/
structure SendData (α : Type) where
  «to» : UserKey
  message : α
  deriving DecidableEq, Repr

/-- The emissions produced by the body of the `sendMsg` handler:

  const sendUserSocketId = onlineUsers.get(data.to);
  if (sendUserSocketId) {
    socket.to(sendUserSocketId).emit("receiveMsg", data.message);
  }

`onlineUsers.get` may return `undefined` (no entry) and the guard
`if (sendUserSocketId)` is JavaScript truthiness, so both `undefined`
and the empty string are dropped.  `socket.to(room).emit` sends to
every member of `room` except the emitting socket itself; each socket
is the sole member of the room named by its own id, so the emission
reaches exactly the socket `sendUserSocketId` unless that socket is
the sender, in which case nobody receives it.  The result lists the
`receiveMsg` deliveries as (recipient socket id, payload) pairs. -/
def sendMsgTargets {α : Type} (reg : Registry) (sender : SocketId)
    (d : SendData α) : List (SocketId × α) :=
  match mapGet reg d.to with
  | none => []
  | some sid =>
      if sid = "" then []
      else if sid = sender then []
      else [(sid, d.message)]

/-- The events the connection block reacts to.  `sender` is the id of
the socket on which the event arrived.  In `sendMsg`, `none` for the
data models a nullish payload (the client emitted `sendMsg` with no
argument). -/
inductive Event (α : Type) where
  | addUser (sender : SocketId) (userId : UserKey)
  | sendMsg (sender : SocketId) (data : Option (SendData α))
  | disconnect (sid : SocketId)
  deriving DecidableEq, Repr

/-- Whether an event is a registration (`addUser`) event. -/
def Event.isRegister {α : Type} : Event α → Bool
  | .addUser _ _ => true
  | _ => false

/-- Observable server state: the `onlineUsers` registry, the trace of
`receiveMsg` emissions so far, and the trace of uncaught handler
exceptions. -/
structure ServerState (α : Type) where
  onlineUsers : Registry
  emitted : List (SocketId × α)
  faults : List String
  deriving DecidableEq, Repr

/-- State at process start: `new Map()`, nothing emitted, no fault. -/
def initState {α : Type} : ServerState α := ⟨[], [], []⟩

/-- One event-handler invocation.

* `addUser`: `onlineUsers.set(userId, socket.id)`.
* `sendMsg` with a nullish payload: evaluating `data.to` throws a
  `TypeError` (reading a property of `undefined`), recorded as a
  fault; the registry is not touched.
* `sendMsg` with an object payload: the handler body emits
  `sendMsgTargets`; it never writes the map and never throws.
* `disconnect`: no handler is installed in the source, so the state is
  unchanged. -/
def step {α : Type} (s : ServerState α) : Event α → ServerState α
  | .addUser sender userId =>
      { s with onlineUsers := mapSet s.onlineUsers userId sender }
  | .sendMsg sender data =>
      match data with
      | none => { s with faults := s.faults ++ ["TypeError"] }
      | some d =>
          { s with emitted := s.emitted ++ sendMsgTargets s.onlineUsers sender d }
  | .disconnect _ => s

/-- Run a sequence of events from a state. -/
def run {α : Type} (s : ServerState α) (es : List (Event α)) : ServerState α :=
  es.foldl step s

/-- The `addUser` events produced by a sequence of registrations, each
given as (user key, registering socket id). -/
def regEvents {α : Type} (rs : List (UserKey × SocketId)) : List (Event α) :=
  rs.map (fun p => Event.addUser p.2 p.1)

/-- Modelled from the spec (P1): the connection id of the most recent
`Register(u, _)` call in a sequence of registrations, `none` when `u`
was never registered.  Later entries of the list are more recent. -/
def mostRecentReg (rs : List (UserKey × SocketId)) (u : UserKey) : Option SocketId :=
  match rs with
  | [] => none
  | p :: rest =>
      match mostRecentReg rest u with
      | some c => some c
      | none => if p.1 = u then some p.2 else none

/-! ### Map lemmas -/

theorem mapGet_mapSet (m : Registry) (k : UserKey) (v : SocketId) (u : UserKey) :
    mapGet (mapSet m k v) u = if k = u then some v else mapGet m u := by
  induction m with
  | nil => simp [mapGet, mapSet]
  | cons hd tl ih =>
      obtain ⟨k', v'⟩ := hd
      by_cases hk : k' = k
      · subst hk
        by_cases hu : k' = u <;> simp [mapGet, mapSet, hu]
      · by_cases hu : k' = u
        · subst hu
          have : ¬ k = k' := fun h => hk h.symm
          simp [mapGet, mapSet, hk, this]
        · simp [mapGet, mapSet, hk, hu, ih]

theorem mapGet_mapSet_self (m : Registry) (k : UserKey) (v : SocketId) :
    mapGet (mapSet m k v) k = some v := by
  simp [mapGet_mapSet]

theorem mapGet_mapSet_ne (m : Registry) (k : UserKey) (v : SocketId)
    (u : UserKey) (h : k ≠ u) :
    mapGet (mapSet m k v) u = mapGet m u := by
  simp [mapGet_mapSet, h]

/-! ### Run lemmas -/

theorem run_nil {α : Type} (s : ServerState α) : run s [] = s := rfl

theorem run_cons {α : Type} (s : ServerState α) (e : Event α) (es : List (Event α)) :
    run s (e :: es) = run (step s e) es := rfl

/-- A single handler invocation never deletes a registry key. -/
theorem step_preserves_key {α : Type} (s : ServerState α) (e : Event α)
    (k : UserKey) (v : SocketId) (h : mapGet s.onlineUsers k = some v) :
    ∃ w, mapGet (step s e).onlineUsers k = some w := by
  cases e with
  | addUser sender userId =>
      by_cases hk : userId = k
      · exact ⟨sender, by simp [step, mapGet_mapSet, hk]⟩
      · exact ⟨v, by simp [step, mapGet_mapSet, hk, h]⟩
  | sendMsg sender data =>
      cases data <;> exact ⟨v, by simpa [step] using h⟩
  | disconnect sid => exact ⟨v, h⟩

/-- No sequence of events ever deletes a registry key. -/
theorem run_preserves_key {α : Type} (es : List (Event α)) (s : ServerState α)
    (k : UserKey) (v : SocketId) (h : mapGet s.onlineUsers k = some v) :
    ∃ w, mapGet (run s es).onlineUsers k = some w := by
  induction es generalizing s v with
  | nil => exact ⟨v, h⟩
  | cons e rest ih =>
      obtain ⟨w, hw⟩ := step_preserves_key s e k v h
      exact ih (step s e) w hw

/-- Running a registration sequence: the lookup of `u` afterwards is
the most recent registration of `u`, falling back to the prior mapping
when the sequence never registers `u`. -/
theorem mapGet_run_regEvents {α : Type} (rs : List (UserKey × SocketId))
    (s : ServerState α) (u : UserKey) :
    mapGet (run s (regEvents rs)).onlineUsers u =
      match mostRecentReg rs u with
      | some c => some c
      | none => mapGet s.onlineUsers u := by
  induction rs generalizing s with
  | nil => simp [regEvents, run_nil, mostRecentReg]
  | cons p rest ih =>
      have hstep : run s (regEvents (p :: rest)) =
          run (step s (.addUser p.2 p.1)) (regEvents rest) := rfl
      rw [hstep, ih]
      cases hrec : mostRecentReg rest u with
      | some c => simp [mostRecentReg, hrec]
      | none =>
          by_cases hp : p.1 = u <;>
            simp [mostRecentReg, hrec, hp, step, mapGet_mapSet]

/-! ### Claim theorems -/

/-- Claim C3: a relay addressed to a user with no registration entry
produces zero deliveries and raises no error: the whole server state,
registry, emission trace and fault trace alike, is left unchanged. -/
theorem relay_unregistered_silent_drop {α : Type} (s : ServerState α)
    (sender : SocketId) (u : String) (p : α)
    (h : mapGet s.onlineUsers (some u) = none) :
    step s (Event.sendMsg sender (some ⟨some u, p⟩)) = s := by
  simp [step, sendMsgTargets, h]

/-- Witness for C3: scenario B, a relay to the never-registered
"carol" from the fresh server state is a complete no-op. -/
theorem relay_unregistered_silent_drop_witness :
    mapGet (initState (α := String)).onlineUsers (some "carol") = none ∧
    step (initState (α := String)) (Event.sendMsg "conn1" (some ⟨some "carol", "hi"⟩)) =
      initState :=
  ⟨rfl, relay_unregistered_silent_drop initState "conn1" "carol" "hi" rfl⟩

/-- Claim C7: Register always succeeds as an in-memory write with no
error and no side effect beyond the one mapping mutation: afterwards
the user is mapped to the registering connection, nothing is emitted,
no fault is recorded, and every other key is untouched. -/
theorem register_always_succeeds {α : Type} (s : ServerState α)
    (sender : SocketId) (u : UserKey) :
    mapGet (step s (Event.addUser sender u)).onlineUsers u = some sender ∧
    (step s (Event.addUser sender u)).emitted = s.emitted ∧
    (step s (Event.addUser sender u)).faults = s.faults ∧
    ∀ k, k ≠ u → mapGet (step s (Event.addUser sender u)).onlineUsers k =
      mapGet s.onlineUsers k := by
  refine ⟨?_, rfl, rfl, ?_⟩
  · simp [step, mapGet_mapSet]
  · intro k hk
    simpa [step] using mapGet_mapSet_ne s.onlineUsers u sender k (Ne.symm hk)

/-- Witness for C7: registering "alice" on "conn1" over a state that
already maps "bob" maps "alice" and leaves "bob" alone. -/
theorem register_always_succeeds_witness :
    mapGet (step (⟨[(some "bob", "conn2")], [], []⟩ : ServerState String)
        (Event.addUser "conn1" (some "alice"))).onlineUsers (some "alice") = some "conn1" ∧
    mapGet (step (⟨[(some "bob", "conn2")], [], []⟩ : ServerState String)
        (Event.addUser "conn1" (some "alice"))).onlineUsers (some "bob") =
      mapGet (⟨[(some "bob", "conn2")], [], []⟩ : ServerState String).onlineUsers (some "bob") :=
  ⟨(register_always_succeeds _ "conn1" (some "alice")).1,
   (register_always_succeeds _ "conn1" (some "alice")).2.2.2 (some "bob") (by decide)⟩

/-- Claim C8: Relay is read-only on the registry: a `sendMsg` event,
well-formed or nullish, leaves the `onlineUsers` mapping exactly
unchanged. -/
theorem relay_preserves_registry {α : Type} (s : ServerState α)
    (sender : SocketId) (data : Option (SendData α)) :
    (step s (Event.sendMsg sender data)).onlineUsers = s.onlineUsers := by
  cases data <;> rfl

/-- Claim C9: registering one user never alters any other user's
entry: for every key distinct from the registered user, the lookup
after `addUser` agrees with the lookup before. -/
theorem register_frame_other_users {α : Type} (s : ServerState α)
    (sender : SocketId) (u k : UserKey) (h : k ≠ u) :
    mapGet (step s (Event.addUser sender u)).onlineUsers k =
      mapGet s.onlineUsers k := by
  simpa [step] using mapGet_mapSet_ne s.onlineUsers u sender k (Ne.symm h)

/-- Witness for C9: registering "alice" leaves the entry of "bob"
untouched. -/
theorem register_frame_other_users_witness :
    (some "bob" : UserKey) ≠ some "alice" ∧
    mapGet (step (⟨[(some "bob", "conn2")], [], []⟩ : ServerState String)
        (Event.addUser "conn3" (some "alice"))).onlineUsers (some "bob") =
      mapGet (⟨[(some "bob", "conn2")], [], []⟩ : ServerState String).onlineUsers (some "bob") :=
  ⟨by decide, register_frame_other_users _ "conn3" (some "alice") (some "bob") (by decide)⟩

/-- Claim C10: no self-echo: `socket.to(room)` never emits back to the
emitting socket, so no relay delivery ever targets the sender, and a
self-addressed message (the sender's own socket is the one registered
for the target user) produces zero deliveries. -/
theorem relay_no_self_echo {α : Type} (reg : Registry) (sender : SocketId)
    (d : SendData α) :
    (∀ t ∈ sendMsgTargets reg sender d, t.1 ≠ sender) ∧
    (mapGet reg d.to = some sender → sendMsgTargets reg sender d = []) := by
  constructor
  · intro t ht
    simp only [sendMsgTargets] at ht
    cases h : mapGet reg d.to with
    | none => rw [h] at ht; simp at ht
    | some sid =>
        rw [h] at ht
        by_cases h1 : sid = ""
        · simp [h1] at ht
        · by_cases h2 : sid = sender
          · simp [h1, h2] at ht
          · simp [h1, h2] at ht
            rw [ht]
            exact h2
  · intro h
    simp [sendMsgTargets, h]

/-- Witness for C10: a delivery to "conn1" cannot target the sender
"conn2", and a message from "conn1" addressed to its own registered
user "alice" is dropped. -/
theorem relay_no_self_echo_witness :
    (("conn1", "x") : SocketId × String).1 ≠ "conn2" ∧
    sendMsgTargets [(some "alice", "conn1")] "conn1"
      (⟨some "alice", "x"⟩ : SendData String) = [] :=
  ⟨(relay_no_self_echo [(some "alice", "conn1")] "conn2" ⟨some "alice", "x"⟩).1
      ("conn1", "x") (by decide),
   (relay_no_self_echo [(some "alice", "conn1")] "conn1" ⟨some "alice", "x"⟩).2 (by decide)⟩

/-- Counterexample to claim C1 as stated: it quantifies over every
sender connection, but with "alice" mapped to "conn1" a relay to
"alice" emitted from "conn1" itself delivers nothing at all, because
`socket.to(room).emit` never reaches the emitting socket. -/
theorem relay_self_sender_undelivered_cex :
    mapGet [(some "alice", "conn1")] (some "alice") = some "conn1" ∧
    sendMsgTargets [(some "alice", "conn1")] "conn1"
      (⟨some "alice", "x"⟩ : SendData String) = [] := by
  exact ⟨rfl, rfl⟩

/-- Claim C1 (amended): if user u is currently mapped to a truthy
(non-empty) connection id c and the sending connection is not c
itself, then the relay delivers exactly the payload p, unmodified, to
c and to nobody else. -/
theorem relay_delivers_payload_unmodified {α : Type} (reg : Registry)
    (sender : SocketId) (u : String) (c : SocketId) (p : α)
    (hmap : mapGet reg (some u) = some c) (hne : c ≠ "") (hs : c ≠ sender) :
    sendMsgTargets reg sender ⟨some u, p⟩ = [(c, p)] := by
  simp [sendMsgTargets, hmap, hne, hs]

/-- Witness for C1 (amended): scenario A, "bob" registered on "conn2"
receives "hi" sent from "conn1". -/
theorem relay_delivers_payload_unmodified_witness :
    mapGet [(some "bob", "conn2")] (some "bob") = some "conn2" ∧
    ("conn2" : SocketId) ≠ "" ∧ ("conn2" : SocketId) ≠ "conn1" ∧
    sendMsgTargets [(some "bob", "conn2")] "conn1"
      (⟨some "bob", "hi"⟩ : SendData String) = [("conn2", "hi")] :=
  ⟨by decide, by decide, by decide,
   relay_delivers_payload_unmodified [(some "bob", "conn2")] "conn1" "bob" "conn2" "hi"
     (by decide) (by decide) (by decide)⟩

/-- Claim C2: last-writer-wins registration.  First part: running any
sequence of Register calls from the fresh state, the lookup of u is
exactly the connection of the most recent Register(u, _), none when u
was never registered.  Second part: scenario C, after registering
"alice" on "conn1" and then on "conn3", any delivery of a relay to
"alice" targets "conn3" and never "conn1", whatever the sender. -/
theorem register_last_writer_wins :
    (∀ (α : Type) (rs : List (UserKey × SocketId)) (u : UserKey),
        mapGet (run (initState (α := α)) (regEvents rs)).onlineUsers u =
          mostRecentReg rs u) ∧
    (∀ (α : Type) (sender : SocketId) (p : α) (t : SocketId × α),
        t ∈ sendMsgTargets
            (run (initState (α := α))
              (regEvents [(some "alice", "conn1"), (some "alice", "conn3")])).onlineUsers
            sender ⟨some "alice", p⟩ →
        t.1 = "conn3" ∧ t.1 ≠ "conn1") := by
  constructor
  · intro α rs u
    rw [mapGet_run_regEvents]
    cases h : mostRecentReg rs u <;> simp [initState, mapGet]
  · intro α sender p t ht
    have hreg : (run (initState (α := α))
        (regEvents [(some "alice", "conn1"), (some "alice", "conn3")])).onlineUsers =
        [(some "alice", "conn3")] := rfl
    rw [hreg] at ht
    by_cases hs : ("conn3" : SocketId) = sender
    · simp [sendMsgTargets, mapGet, hs] at ht
    · simp [sendMsgTargets, mapGet, hs] at ht
      rw [ht]
      refine ⟨rfl, ?_⟩
      show ("conn3" : SocketId) ≠ "conn1"
      decide

/-- Witness for C2: the lookup after scenario C is "conn3", and the
concrete delivery of "x" relayed from "conn1" targets "conn3", not
"conn1". -/
theorem register_last_writer_wins_witness :
    mapGet (run (initState (α := String))
        (regEvents [(some "alice", "conn1"), (some "alice", "conn3")])).onlineUsers
      (some "alice") =
      mostRecentReg [(some "alice", "conn1"), (some "alice", "conn3")] (some "alice") ∧
    ((("conn3", "x") : SocketId × String).1 = "conn3" ∧
      (("conn3", "x") : SocketId × String).1 ≠ "conn1") :=
  ⟨register_last_writer_wins.1 String
      [(some "alice", "conn1"), (some "alice", "conn3")] (some "alice"),
   register_last_writer_wins.2 String "conn1" "x" ("conn3", "x") (by decide)⟩

/-- Counterexample to claim C5 as stated: it quantifies over all pairs
of distinct registered users, but two distinct users can be registered
on the same connection, and then a message addressed to the first is
delivered to the second user's connection. -/
theorem relay_shared_connection_cross_delivery_cex :
    (some "alice" : UserKey) ≠ some "bob" ∧
    mapGet [(some "alice", "conn1"), (some "bob", "conn1")] (some "bob") = some "conn1" ∧
    ("conn1", "x") ∈ sendMsgTargets [(some "alice", "conn1"), (some "bob", "conn1")]
      "conn9" (⟨some "alice", "x"⟩ : SendData String) := by
  refine ⟨by decide, rfl, ?_⟩
  decide

/-- Claim C5 (amended): isolation for users on distinct connections:
if distinct users u1 and u2 are registered on distinct connections,
then no delivery of a message addressed to u1 targets u2's
connection. -/
theorem relay_isolation {α : Type} (reg : Registry) (sender : SocketId)
    (u1 u2 : String) (c1 c2 : SocketId) (p : α) (hu : u1 ≠ u2)
    (h1 : mapGet reg (some u1) = some c1) (h2 : mapGet reg (some u2) = some c2)
    (hcc : c2 ≠ c1) :
    ∀ t ∈ sendMsgTargets reg sender ⟨some u1, p⟩, t.1 ≠ c2 := by
  intro t ht
  simp only [sendMsgTargets, h1] at ht
  split_ifs at ht with hb hs
  · simp at ht
  · simp at ht
  · simp at ht
    rw [ht]
    exact Ne.symm hcc

/-- Witness for C5 (amended): with "alice" on "conn1" and "bob" on
"conn2", the delivery of a message to "alice" does not target
"conn2". -/
theorem relay_isolation_witness :
    ("alice" : String) ≠ "bob" ∧
    (("conn1", "x") : SocketId × String).1 ≠ "conn2" :=
  ⟨by decide,
   relay_isolation [(some "alice", "conn1"), (some "bob", "conn2")] "conn9"
     "alice" "bob" "conn1" "conn2" "x" (by decide) (by decide) (by decide) (by decide)
     ("conn1", "x") (by decide)⟩

/-- Claim C6: registry-growth invariant.  First part: across every
sequence of events, a key present in the registry is never removed.
Second part: a disconnection leaves the whole state unchanged (no
disconnect handler is installed), so stale entries persist.  Third
part: only a registration event can change the registry. -/
theorem registry_growth_invariant :
    (∀ (α : Type) (s : ServerState α) (es : List (Event α)) (k : UserKey) (v : SocketId),
        mapGet s.onlineUsers k = some v →
        ∃ w, mapGet (run s es).onlineUsers k = some w) ∧
    (∀ (α : Type) (s : ServerState α) (sid : SocketId),
        step s (Event.disconnect sid) = s) ∧
    (∀ (α : Type) (s : ServerState α) (e : Event α),
        e.isRegister = false → (step s e).onlineUsers = s.onlineUsers) := by
  refine ⟨fun α s es k v h => run_preserves_key es s k v h,
    fun α s sid => rfl, fun α s e h => ?_⟩
  cases e with
  | addUser sender userId => simp [Event.isRegister] at h
  | sendMsg sender data => cases data <;> rfl
  | disconnect sid => rfl

/-- Witness for C6: the entry of "alice" survives a disconnection of
its own connection followed by a nullish relay, the disconnection
itself is a no-op, and a relay does not change the registry. -/
theorem registry_growth_invariant_witness :
    (∃ w, mapGet (run (⟨[(some "alice", "conn1")], [], []⟩ : ServerState String)
        [Event.disconnect "conn1", Event.sendMsg "conn2" none]).onlineUsers
        (some "alice") = some w) ∧
    step (⟨[(some "alice", "conn1")], [], []⟩ : ServerState String)
      (Event.disconnect "conn1") = ⟨[(some "alice", "conn1")], [], []⟩ ∧
    (step (⟨[(some "alice", "conn1")], [], []⟩ : ServerState String)
      (Event.sendMsg "conn9" none)).onlineUsers =
      (⟨[(some "alice", "conn1")], [], []⟩ : ServerState String).onlineUsers :=
  ⟨registry_growth_invariant.1 String ⟨[(some "alice", "conn1")], [], []⟩
      [Event.disconnect "conn1", Event.sendMsg "conn2" none] (some "alice") "conn1" rfl,
   registry_growth_invariant.2.1 String ⟨[(some "alice", "conn1")], [], []⟩ "conn1",
   registry_growth_invariant.2.2 String ⟨[(some "alice", "conn1")], [], []⟩
      (Event.sendMsg "conn9" none) rfl⟩

/-- Claim C4 is contradicted by the code on one input class: a nullish
`sendMsg` payload (the client emits `sendMsg` with no argument) makes
the handler evaluate `data.to` on `undefined`, which throws a
TypeError instead of the no-op the spec requires; the fault trace
records it. -/
theorem sendMsg_nullish_payload_faults :
    step (initState (α := String)) (Event.sendMsg "conn1" none) =
      (⟨[], [], ["TypeError"]⟩ : ServerState String) := rfl

end RentalApp
